import Mathlib

/-!
Verification development for the NASA POWER → DSSAT weather-file extractor
(src/dssat_nasapower_extract.py).  The program has two components: a fetcher
(get_daily_nasa_power_data) that validates a date interval, issues one HTTP
request and reindexes the response to the full requested calendar range, and a
writer (save_wth_file) that renames columns, computes header statistics and
serialises each day to a fixed-width line.  We embed both, together with the
orchestration in main, as pure Lean functions over explicit state (a service
outcome for the network, a record of directories/files for the file system).

Numeric cells are modelled as Option ℚ: none plays the role of pandas NaN
(a date or field absent from the service response).  Dates are modelled in the
proleptic Gregorian calendar used by Python's datetime: a Date is a year and a
day-of-year, its ordinal Date.ord coincides with Python date.toordinal.
-/

namespace NasaPowerDssat

/-- Leap-year test of the proleptic Gregorian calendar (Python datetime). -/
def isLeap (y : ℕ) : Bool :=
  (y % 4 == 0 && y % 100 != 0) || y % 400 == 0

/-- Number of days in year y. -/
def daysInYear (y : ℕ) : ℕ := if isLeap y then 366 else 365

/-- Cumulative days before month m in a non-leap year (1 ≤ m ≤ 12). -/
def monthDaysBefore (m : ℕ) : ℕ :=
  match m with
  | 1 => 0 | 2 => 31 | 3 => 59 | 4 => 90 | 5 => 120 | 6 => 151
  | 7 => 181 | 8 => 212 | 9 => 243 | 10 => 273 | 11 => 304 | 12 => 334
  | _ => 0

/-- Number of days of month m in year y (1 ≤ m ≤ 12). -/
def daysInMonth (y m : ℕ) : ℕ :=
  match m with
  | 1 => 31 | 2 => if isLeap y then 29 else 28 | 3 => 31 | 4 => 30
  | 5 => 31 | 6 => 30 | 7 => 31 | 8 => 31 | 9 => 30 | 10 => 31
  | 11 => 30 | 12 => 31
  | _ => 0

/-- Ordinal day-of-year of (y, m, d): Python time.struct_time.tm_yday. -/
def doyOf (y m d : ℕ) : ℕ :=
  monthDaysBefore m + d + (if 2 < m ∧ isLeap y then 1 else 0)

/-- A calendar date: a year together with a day-of-year.  This is the
canonical form the program's date logic needs (strftime %y and tm_yday). -/
structure Date where
  year : ℕ
  doy : ℕ
deriving DecidableEq

/-- The date ⟨y, doy⟩ is an actual calendar date (years as in Python datetime). -/
def ValidDate (d : Date) : Prop :=
  1 ≤ d.year ∧ 1 ≤ d.doy ∧ d.doy ≤ daysInYear d.year

instance (d : Date) : Decidable (ValidDate d) := by
  unfold ValidDate; infer_instance

/-- Days contained in the years 1, …, y−1: Python's _days_before_year. -/
def daysBeforeYear (y : ℕ) : ℕ :=
  365 * (y - 1) + (y - 1) / 4 - (y - 1) / 100 + (y - 1) / 400

/-- Proleptic Gregorian ordinal of a date, as Python date.toordinal. -/
def Date.ord (d : Date) : ℕ := daysBeforeYear d.year + d.doy

/-- The calendar day after d. -/
def nextDate (d : Date) : Date :=
  if d.doy < daysInYear d.year then ⟨d.year, d.doy + 1⟩ else ⟨d.year + 1, 1⟩

/-- The n consecutive calendar days starting at s: the index produced by
pd.date_range restricted to what the program uses (daily frequency). -/
def dateRange (s : Date) : ℕ → List Date
  | 0 => []
  | n + 1 => s :: dateRange (nextDate s) n

/-- Date from a year/month/day triple (as parsed from a YYYYMMDD string). -/
def Date.ofYMD (y m d : ℕ) : Date := ⟨y, doyOf y m d⟩

/-- The triple (y, m, d) is accepted by datetime.strptime with format %Y%m%d. -/
def ValidYMD (y m d : ℕ) : Prop :=
  1 ≤ y ∧ y ≤ 9999 ∧ 1 ≤ m ∧ m ≤ 12 ∧ 1 ≤ d ∧ d ≤ daysInMonth y m

instance (y m d : ℕ) : Decidable (ValidYMD y m d) := by
  unfold ValidYMD; infer_instance

/-- The decimal digit character for n < 10. -/
def digitChar (n : ℕ) : Char := Char.ofNat (48 + n)

/-- Two-digit zero-padded decimal rendering (n < 100): strftime %y applied to
a year renders pad2 (year % 100). -/
def pad2 (n : ℕ) : String := String.mk [digitChar (n / 10 % 10), digitChar (n % 10)]

/-- Three-digit zero-padded decimal rendering (n < 1000): the %03d format
applied to a day-of-year (1 ≤ doy ≤ 366). -/
def pad3 (n : ℕ) : String :=
  String.mk [digitChar (n / 100 % 10), digitChar (n / 10 % 10), digitChar (n % 10)]

/-- The 5-character DSSAT date token built by save_wth_file:
strftime %y of the year followed by the zero-padded 3-digit day-of-year. -/
def dssatDate (d : Date) : String := pad2 (d.year % 100) ++ pad3 d.doy

/-- Decimal digits of n, most significant first. -/
def natDigits (n : ℕ) : List Char := Nat.toDigits 10 n

/-- n rendered in decimal, zero-padded on the left to at least w characters. -/
def padZeros (w n : ℕ) : String :=
  String.mk (List.replicate (w - (natDigits n).length) (Char.ofNat 48) ++ natDigits n)

/-- A string right-justified with spaces to width w, as Python fixed-width
numeric f-string formatting does. -/
def rjust (w : ℕ) (s : String) : String :=
  String.mk (List.replicate (w - s.length) (Char.ofNat 32)) ++ s

/-- The integer nearest to q: ⌊q + 1/2⌋, written with explicit floor division
so that it evaluates by kernel reduction. -/
def ratRound (q : ℚ) : ℤ := Int.fdiv (2 * q.num + q.den) (2 * q.den)

/-- Fixed-point rendering of a rational with dec digits after the point, the
shape produced by Python format specifier .Ndec f.  Rounding to the nearest
representable value stands in for the float-decimal rounding of the source;
every value the program's contracts exercise is exact at the target precision,
where the two agree. -/
def ratFixed (dec : ℕ) (q : ℚ) : String :=
  let z : ℤ := ratRound (q * (10 : ℚ) ^ dec)
  let sign := if z < 0 then "-" else ""
  let m := z.natAbs
  if dec = 0 then sign ++ String.mk (natDigits m)
  else sign ++ String.mk (natDigits (m / 10 ^ dec)) ++ "." ++ padZeros dec (m % 10 ^ dec)

/-- One fixed-width cell as written by the f-string: a NaN cell (a date or
field the service did not supply) prints as nan, a number in fixed point;
both right-justified to the field width. -/
def fmtCell (w dec : ℕ) (x : Option ℚ) : String :=
  match x with
  | none => rjust w "nan"
  | some q => rjust w (ratFixed dec q)

/-- One day's seven cells under the NASA POWER source names.  A none cell is
a pandas NaN: the service did not supply that field for that date. -/
structure Obs where
  t2m : Option ℚ
  t2m_max : Option ℚ
  t2m_min : Option ℚ
  prectotcorr : Option ℚ
  allsky_sfc_sw_dwn : Option ℚ
  rh2m : Option ℚ
  ws2m : Option ℚ
deriving DecidableEq

/-- The same day's cells under the DSSAT column names. -/
structure DssatObs where
  tavg : Option ℚ
  tmax : Option ℚ
  tmin : Option ℚ
  rain : Option ℚ
  srad : Option ℚ
  rhum : Option ℚ
  wind : Option ℚ
deriving DecidableEq

/-- df.rename(columns=required_columns): the fixed 1:1 renaming table of
save_wth_file (T2M→TAVG, T2M_MAX→TMAX, T2M_MIN→TMIN, PRECTOTCORR→RAIN,
ALLSKY_SFC_SW_DWN→SRAD, RH2M→RHUM, WS2M→WIND). -/
def renameColumns (o : Obs) : DssatObs :=
  { tavg := o.t2m, tmax := o.t2m_max, tmin := o.t2m_min, rain := o.prectotcorr,
    srad := o.allsky_sfc_sw_dwn, rhum := o.rh2m, wind := o.ws2m }

/-- The all-NaN row a reindexed DataFrame holds at a date the service did not
return. -/
def Obs.empty : Obs := ⟨none, none, none, none, none, none, none⟩

/-- The body of a successful service response: for each of the seven requested
parameters, the mapping from date (by proleptic ordinal) to value found under
properties.parameter in the JSON document.  A date absent from one parameter's
mapping is none there. -/
structure ServiceData where
  t2m : ℕ → Option ℚ
  t2m_max : ℕ → Option ℚ
  t2m_min : ℕ → Option ℚ
  prectotcorr : ℕ → Option ℚ
  allsky_sfc_sw_dwn : ℕ → Option ℚ
  rh2m : ℕ → Option ℚ
  ws2m : ℕ → Option ℚ

/-- The row the built DataFrame holds at date ordinal n.  Cell (n, p) of
pd.DataFrame(daily_data) is parameter p's value at n when present and NaN
otherwise, for every n in the frame's index. -/
def obsAt (sd : ServiceData) (n : ℕ) : Obs :=
  ⟨sd.t2m n, sd.t2m_max n, sd.t2m_min n, sd.prectotcorr n,
    sd.allsky_sfc_sw_dwn n, sd.rh2m n, sd.ws2m n⟩

/-- Does any of the seven parameter mappings mention date ordinal n?  This is
membership of n in the index of the DataFrame built from the response. -/
def respondedAt (sd : ServiceData) (n : ℕ) : Prop :=
  (sd.t2m n).isSome ∨ (sd.t2m_max n).isSome ∨ (sd.t2m_min n).isSome ∨
    (sd.prectotcorr n).isSome ∨ (sd.allsky_sfc_sw_dwn n).isSome ∨
    (sd.rh2m n).isSome ∨ (sd.ws2m n).isSome

/-- DataFrame construction followed by df.reindex(full_range): the result is
indexed by exactly the dates s, …, e in ascending order; the row at date d is
the built frame's row when d was in the built index and all-NaN otherwise.
Since a date outside the built index has every parameter mapping equal to
none, both cases equal obsAt sd d.ord, which is how we state it. -/
def processResponse (sd : ServiceData) (s e : Date) : List (Date × Obs) :=
  (dateRange s (e.ord + 1 - s.ord)).map (fun d => (d, obsAt sd d.ord))

/-- Outcome of the single HTTP GET issued by the fetcher: either the transport
layer / HTTP status fails (requests.exceptions.RequestException) or a JSON
body arrives. -/
inductive SvcOutcome
  | transportFailure
  | ok (sd : ServiceData)

/-- How a call to get_daily_nasa_power_data ends: the ValueError of the
30-year check propagating, or a normal return (None after a caught transport
failure, a DataFrame on success). -/
inductive FetchOut
  | raisedValueError
  | returned (df : Option (List (Date × Obs)))

/-- Observable trace of one fetcher call: how many HTTP requests were issued,
how many diagnostic lines were printed, and the outcome. -/
structure FetchTrace where
  httpRequests : ℕ
  printedDiagnostics : ℕ
  out : FetchOut

/-- get_daily_nasa_power_data after date parsing: if the interval exceeds
365 * 30 days the ValueError is raised before the request; otherwise one GET
is issued and a transport failure is caught, printed and turned into None,
while a response is processed and reindexed to the full requested range. -/
def get_daily_nasa_power_data (s e : Date) (svc : SvcOutcome) : FetchTrace :=
  if 365 * 30 < (e.ord : ℤ) - (s.ord : ℤ) then
    { httpRequests := 0, printedDiagnostics := 0, out := .raisedValueError }
  else
    match svc with
    | .transportFailure =>
        { httpRequests := 1, printedDiagnostics := 1, out := .returned none }
    | .ok sd =>
        { httpRequests := 1, printedDiagnostics := 0,
          out := .returned (some (processResponse sd s e)) }

/-- pandas Series.mean: the arithmetic mean of the non-NaN entries, NaN when
there is none. -/
def pdMean (xs : List (Option ℚ)) : Option ℚ :=
  if (xs.filterMap id).length = 0 then none
  else some ((xs.filterMap id).sum / (xs.filterMap id).length)

instance : Std.Antisymm (fun a b : ℚ => a ≤ b) := ⟨fun h1 h2 => le_antisymm h1 h2⟩

/-- pandas Series.max: the greatest non-NaN entry, NaN when there is none. -/
def pdMax (xs : List (Option ℚ)) : Option ℚ := (xs.filterMap id).max?

/-- pandas Series.min: the least non-NaN entry, NaN when there is none. -/
def pdMin (xs : List (Option ℚ)) : Option ℚ := (xs.filterMap id).min?

/-- The TAV header statistic: df[TAVG].mean() over the whole series. -/
def tavOf (df : List (Date × DssatObs)) : Option ℚ :=
  pdMean (df.map (fun p => p.2.tavg))

/-- The AMP header statistic: (df[TMAX].max() − df[TMIN].min()) / 2, NaN
(propagated by float arithmetic) when either aggregate is NaN. -/
def ampOf (df : List (Date × DssatObs)) : Option ℚ :=
  match pdMax (df.map (fun p => p.2.tmax)), pdMin (df.map (fun p => p.2.tmin)) with
  | some a, some b => some ((a - b) / 2)
  | _, _ => none

/-- The four header lines of the .WTH file, newline-terminated. -/
def wthHeader (site : String) (lat lon elev : ℚ) (tavg amp : Option ℚ) : String :=
  "*WEATHER DATA : " ++ site ++ "\n" ++
  "@ INSI      LAT     LONG  ELEV   TAV   AMP REFHT WNDHT\n" ++
  "  " ++ site ++ "  " ++ fmtCell 6 3 (some lat) ++ " " ++ fmtCell 6 3 (some lon) ++
  " " ++ fmtCell 5 0 (some elev) ++ "  " ++ fmtCell 4 1 tavg ++ "  " ++
  fmtCell 4 1 amp ++ "     2     2\n" ++
  "@DATE  SRAD  TMAX  TMIN  RAIN  RHUM  WIND\n"

/-- pandas Series.get(key, default) for a row of this frame: the seven DSSAT
columns are always present in the row's index, so the cell — NaN included —
is returned and the default (the -99 of the source) never applies. -/
def rowGet (cell : Option ℚ) (dflt : ℚ) : Option ℚ := cell

/-- One body line of the .WTH file: the 5-character date token followed by
SRAD, TMAX, TMIN, RAIN (width 5, 1 decimal), RHUM (width 5, 0 decimals) and
WIND (width 5, 1 decimal), space-separated. -/
def dataLine (d : Date) (r : DssatObs) : String :=
  dssatDate d ++ " " ++ fmtCell 5 1 (rowGet r.srad (-99)) ++ " " ++
    fmtCell 5 1 (rowGet r.tmax (-99)) ++ " " ++ fmtCell 5 1 (rowGet r.tmin (-99)) ++
    " " ++ fmtCell 5 1 (rowGet r.rain (-99)) ++ " " ++
    fmtCell 5 0 (rowGet r.rhum (-99)) ++ " " ++ fmtCell 5 1 (rowGet r.wind (-99))

/-- The file system as the program observes it: existing directories and a
mapping from path to file content. -/
structure FS where
  dirs : List String
  files : List (String × String)
deriving DecidableEq

/-- open(path, w) followed by the two writes: the path now maps to content,
any previous content is discarded, nothing else changes. -/
def fsWrite (fs : FS) (path content : String) : FS :=
  { fs with files := (path, content) :: fs.files.filter (fun p => p.1 != path) }

/-- os.makedirs(dir, exist_ok=True): ensure dir exists, no error either way. -/
def fsMakedirs (fs : FS) (dir : String) : FS :=
  if dir ∈ fs.dirs then fs else { fs with dirs := dir :: fs.dirs }

/-- save_wth_file: make the folder, rename the columns, compute TAV and AMP,
assemble header and body and write them to output_folder/W<site>01.WTH
(os.path.join with a separator-free folder).  Total: the write reports no
error whatever the prior state of the file system. -/
def save_wth_file (fs : FS) (df : List (Date × Obs)) (site : String)
    (lat lon elev : ℚ) (output_folder : String) : FS :=
  let fs1 := fsMakedirs fs output_folder
  let rdf := df.map (fun p => (p.1, renameColumns p.2))
  let tavg := tavOf rdf
  let amp := ampOf rdf
  let header := wthHeader site lat lon elev tavg amp
  let data_lines := rdf.map (fun p => dataLine p.1 p.2)
  let output_file := output_folder ++ "/" ++ ("W" ++ site ++ "01.WTH")
  fsWrite fs1 output_file (header ++ String.intercalate "\n" data_lines)

/-- How a run of main ends: an uncaught exception escaping (with the file
system as the crash left it), or completion with a final file-system state. -/
inductive RunOut
  | uncaughtNameError (fs : FS)
  | completed (fs : FS)
deriving DecidableEq

/-- main, given the values returned by its two fetch calls: daily_data is
assigned only inside if period1_data is not None and period2_data is not None,
so when either fetch returned None the later line if daily_data is not None
reads an unbound local and raises NameError before anything is written; when
both succeeded the two frames are concatenated in order and written for site
BRMT. -/
def mainRun (period1_data period2_data : Option (List (Date × Obs))) (fs : FS) : RunOut :=
  match period1_data, period2_data with
  | some d1, some d2 =>
      .completed (save_wth_file fs (d1 ++ d2) "BRMT" (-1354/100) (-5882/100) 370 "./output")
  | _, _ => .uncaughtNameError fs

/-- A concrete renamed three-day series used to instantiate the header
statistics: TAVG values 10, 20, 30, TMAX maximum 35, TMIN minimum 5. -/
def sampleDssatFrame : List (Date × DssatObs) :=
  [(Date.ofYMD 2020 1 1,
      { tavg := some 10, tmax := some 35, tmin := some 15, rain := some 0,
        srad := some 20, rhum := some 80, wind := some 2 }),
    (Date.ofYMD 2020 1 2,
      { tavg := some 20, tmax := some 30, tmin := some 5, rain := some 0,
        srad := some 20, rhum := some 80, wind := some 2 }),
    (Date.ofYMD 2020 1 3,
      { tavg := some 30, tmax := some 25, tmin := some 10, rain := some 0,
        srad := some 20, rhum := some 80, wind := some 2 })]

/-- A concrete one-day service response used to instantiate the theorems: all
seven parameters carry a value for 2020-01-01 (ordinal 737425) and no other
date. -/
def sampleService : ServiceData where
  t2m := fun n => if n = 737425 then some 25 else none
  t2m_max := fun n => if n = 737425 then some 30 else none
  t2m_min := fun n => if n = 737425 then some 20 else none
  prectotcorr := fun n => if n = 737425 then some 0 else none
  allsky_sfc_sw_dwn := fun n => if n = 737425 then some 22 else none
  rh2m := fun n => if n = 737425 then some 80 else none
  ws2m := fun n => if n = 737425 then some 2 else none

theorem daysInYear_eq (y : ℕ) :
    daysInYear y = if (y % 4 = 0 ∧ y % 100 ≠ 0) ∨ y % 400 = 0 then 366 else 365 := by
  unfold daysInYear isLeap
  by_cases h4 : y % 4 = 0 <;> by_cases h100 : y % 100 = 0 <;>
    by_cases h400 : y % 400 = 0 <;> simp [h4, h100, h400]

set_option maxHeartbeats 4000000 in
theorem daysBeforeYear_succ (y : ℕ) (hy : 1 ≤ y) :
    daysBeforeYear (y + 1) = daysBeforeYear y + daysInYear y := by
  have h := daysInYear_eq y
  generalize hD : daysInYear y = D at h ⊢
  unfold daysBeforeYear
  by_cases h4 : y % 4 = 0 <;> by_cases h100 : y % 100 = 0 <;>
    by_cases h400 : y % 400 = 0 <;>
    simp only [h4, h100, h400, ne_eq, not_true_eq_false, not_false_eq_true,
      and_true, and_false, false_or, or_true, or_false, if_true, if_false,
      true_and, false_and] at h <;>
    omega

theorem daysInYear_ge (y : ℕ) : 365 ≤ daysInYear y := by
  rw [daysInYear_eq]; split <;> omega

theorem daysBeforeYear_add_le (y k : ℕ) (hy : 1 ≤ y) :
    daysBeforeYear y + 365 * k ≤ daysBeforeYear (y + k) := by
  induction k with
  | zero => simp
  | succ n ih =>
    have h1 : daysBeforeYear (y + n + 1) = daysBeforeYear (y + n) + daysInYear (y + n) :=
      daysBeforeYear_succ _ (by omega)
    have h2 : 365 ≤ daysInYear (y + n) := daysInYear_ge _
    have h3 : y + (n + 1) = y + n + 1 := by omega
    rw [h3]
    omega

theorem ord_nextDate (d : Date) (h : ValidDate d) : (nextDate d).ord = d.ord + 1 := by
  obtain ⟨h1, h2, h3⟩ := h
  unfold nextDate Date.ord
  split
  · simp only; omega
  · have hd : d.doy = daysInYear d.year := by omega
    simp only
    rw [daysBeforeYear_succ d.year h1]
    omega

theorem validDate_nextDate (d : Date) (h : ValidDate d) : ValidDate (nextDate d) := by
  obtain ⟨h1, h2, h3⟩ := h
  unfold nextDate ValidDate
  have h365 := daysInYear_ge d.year
  have h365b := daysInYear_ge (d.year + 1)
  split <;> simp only <;> omega

theorem dateRange_map_ord (n : ℕ) (s : Date) (h : ValidDate s) :
    (dateRange s n).map Date.ord = List.range' s.ord n := by
  induction n generalizing s with
  | zero => rfl
  | succ k ih =>
    rw [dateRange, List.map_cons, List.range'_succ,
      ih (nextDate s) (validDate_nextDate s h), ord_nextDate s h]

theorem validDate_mem_dateRange (n : ℕ) (s : Date) (h : ValidDate s) :
    ∀ d ∈ dateRange s n, ValidDate d := by
  induction n generalizing s with
  | zero => intro d hd; cases hd
  | succ k ih =>
    intro d hd
    rw [dateRange, List.mem_cons] at hd
    rcases hd with rfl | hd
    · exact h
    · exact ih (nextDate s) (validDate_nextDate s h) d hd

theorem digitChar_injOn : ∀ a < 10, ∀ b < 10, digitChar a = digitChar b → a = b := by
  decide

theorem dssatDate_data (d : Date) :
    (dssatDate d).data =
      [digitChar (d.year % 100 / 10 % 10), digitChar (d.year % 100 % 10),
        digitChar (d.doy / 100 % 10), digitChar (d.doy / 10 % 10),
        digitChar (d.doy % 10)] := rfl

theorem dssatDate_eq_iff (d1 d2 : Date) (h1 : ValidDate d1) (h2 : ValidDate d2) :
    dssatDate d1 = dssatDate d2 ↔
      d1.year % 100 = d2.year % 100 ∧ d1.doy = d2.doy := by
  constructor
  · intro h
    have hd := congrArg String.data h
    rw [dssatDate_data, dssatDate_data] at hd
    simp only [List.cons.injEq, and_true] at hd
    obtain ⟨e1, e2, e3, e4, e5⟩ := hd
    have t1 := digitChar_injOn _ (Nat.mod_lt _ (by omega)) _ (Nat.mod_lt _ (by omega)) e1
    have t2 := digitChar_injOn _ (Nat.mod_lt _ (by omega)) _ (Nat.mod_lt _ (by omega)) e2
    have t3 := digitChar_injOn _ (Nat.mod_lt _ (by omega)) _ (Nat.mod_lt _ (by omega)) e3
    have t4 := digitChar_injOn _ (Nat.mod_lt _ (by omega)) _ (Nat.mod_lt _ (by omega)) e4
    have t5 := digitChar_injOn _ (Nat.mod_lt _ (by omega)) _ (Nat.mod_lt _ (by omega)) e5
    have hy1 : d1.year % 100 < 100 := Nat.mod_lt _ (by omega)
    have hy2 : d2.year % 100 < 100 := Nat.mod_lt _ (by omega)
    have hb1 : d1.doy ≤ 366 := le_trans h1.2.2 (by rw [daysInYear_eq]; split <;> omega)
    have hb2 : d2.doy ≤ 366 := le_trans h2.2.2 (by rw [daysInYear_eq]; split <;> omega)
    omega
  · intro ⟨hy, hd⟩
    unfold dssatDate
    rw [hy, hd]

theorem dssatDate_ne (d1 d2 : Date) (h1 : ValidDate d1) (h2 : ValidDate d2)
    (hlt : d1.ord < d2.ord) (hclose : d2.ord - d1.ord < 36500) :
    dssatDate d1 ≠ dssatDate d2 := by
  intro h
  rw [dssatDate_eq_iff d1 d2 h1 h2] at h
  obtain ⟨hy, hdoy⟩ := h
  rcases Nat.lt_trichotomy d1.year d2.year with hy2 | hy2 | hy2
  · have h100 : d1.year + 100 ≤ d2.year := by omega
    have hg := daysBeforeYear_add_le d1.year (d2.year - d1.year) h1.1
    rw [show d1.year + (d2.year - d1.year) = d2.year by omega] at hg
    unfold Date.ord at hlt hclose
    omega
  · unfold Date.ord at hlt
    rw [hy2, hdoy] at hlt
    omega
  · have h100 : d2.year + 100 ≤ d1.year := by omega
    have hg := daysBeforeYear_add_le d2.year (d1.year - d2.year) h2.1
    rw [show d2.year + (d1.year - d2.year) = d1.year by omega] at hg
    unfold Date.ord at hlt hclose
    omega

theorem tokens_nodup_of_window (l : List Date) (a n : ℕ) (hn : n ≤ 36500)
    (hmap : l.map Date.ord = List.range' a n)
    (hval : ∀ d ∈ l, ValidDate d) :
    (l.map dssatDate).Nodup := by
  have hordpw : l.Pairwise (fun u v => u.ord < v.ord) := by
    rw [← List.pairwise_map (f := Date.ord), hmap]
    exact List.pairwise_lt_range' a n
  have hbound : ∀ d ∈ l, a ≤ d.ord ∧ d.ord < a + n := by
    intro d hd
    have : d.ord ∈ l.map Date.ord := List.mem_map_of_mem Date.ord hd
    rw [hmap, List.mem_range'_1] at this
    exact this
  show List.Pairwise _ _
  rw [List.pairwise_map]
  refine List.Pairwise.imp_of_mem ?_ hordpw
  intro u v hu hv hlt
  have h1 := hbound u hu
  have h2 := hbound v hv
  exact dssatDate_ne u v (hval u hu) (hval v hv) hlt (by omega)

/-- C1: for every valid interval (start, end) with end − start at most 30
years, when the fetch succeeds the returned series is keyed by exactly the
full inclusive calendar range [start, end] — consecutive ordinals in ascending
order, hence no duplicates and no gaps — regardless of which dates the remote
service returned, and every date the service did not mention carries an
observation with all seven fields missing. -/
theorem fetch_reindexes_to_full_range (s e : Date) (sd : ServiceData)
    (hs : ValidDate s) (he : ValidDate e) (hle : s.ord ≤ e.ord)
    (hlen : (e.ord : ℤ) - s.ord ≤ 365 * 30) :
    ∃ frame, (get_daily_nasa_power_data s e (.ok sd)).out = .returned (some frame) ∧
      frame.map (fun p => p.1.ord) = List.range' s.ord (e.ord + 1 - s.ord) ∧
      ∀ p ∈ frame, ¬ respondedAt sd p.1.ord → p.2 = Obs.empty := by
  refine ⟨processResponse sd s e, ?_, ?_, ?_⟩
  · unfold get_daily_nasa_power_data
    rw [if_neg (by omega)]
  · unfold processResponse
    rw [List.map_map]
    exact dateRange_map_ord _ s hs
  · intro p hp hresp
    unfold processResponse at hp
    rw [List.mem_map] at hp
    obtain ⟨d, hd, rfl⟩ := hp
    unfold respondedAt at hresp
    push_neg at hresp
    simp only [Bool.not_eq_true, Option.not_isSome, Option.isNone_iff_eq_none] at hresp
    obtain ⟨q1, q2, q3, q4, q5, q6, q7⟩ := hresp
    simp only [obsAt, Obs.empty, q1, q2, q3, q4, q5, q6, q7]

/-- C1 witness: the theorem instantiated at the one-day interval
2020-01-01..2020-01-01 and the concrete sample response. -/
theorem fetch_reindexes_to_full_range_witness :
    (ValidDate (Date.ofYMD 2020 1 1) ∧
        (Date.ofYMD 2020 1 1).ord ≤ (Date.ofYMD 2020 1 1).ord ∧
        ((Date.ofYMD 2020 1 1).ord : ℤ) - (Date.ofYMD 2020 1 1).ord ≤ 365 * 30) ∧
      ∃ frame,
        (get_daily_nasa_power_data (Date.ofYMD 2020 1 1) (Date.ofYMD 2020 1 1)
            (.ok sampleService)).out = .returned (some frame) ∧
        frame.map (fun p => p.1.ord) =
          List.range' (Date.ofYMD 2020 1 1).ord
            ((Date.ofYMD 2020 1 1).ord + 1 - (Date.ofYMD 2020 1 1).ord) ∧
        ∀ p ∈ frame, ¬ respondedAt sampleService p.1.ord → p.2 = Obs.empty :=
  ⟨⟨by decide, by decide, by decide⟩,
    fetch_reindexes_to_full_range (Date.ofYMD 2020 1 1) (Date.ofYMD 2020 1 1)
      sampleService (by decide) (by decide) (by decide) (by decide)⟩

/-- C3: for parseable dates, an interval of more than 10950 days makes the
fetch raise the ValueError before any network access — zero HTTP requests are
issued — and an interval of at most 10950 days passes the check (the
ValueError is never the outcome), whatever the service does. -/
theorem fetch_interval_validation (s e : Date) (hs : ValidDate s) (he : ValidDate e) :
    (10950 < (e.ord : ℤ) - s.ord →
      ∀ svc, get_daily_nasa_power_data s e svc =
        { httpRequests := 0, printedDiagnostics := 0, out := .raisedValueError }) ∧
    ((e.ord : ℤ) - s.ord ≤ 10950 →
      ∀ svc, (get_daily_nasa_power_data s e svc).out ≠ FetchOut.raisedValueError) := by
  constructor
  · intro hgt svc
    unfold get_daily_nasa_power_data
    rw [if_pos (by omega)]
  · intro hle svc
    unfold get_daily_nasa_power_data
    rw [if_neg (by omega)]
    cases svc <;> simp

/-- C3 witness: a 35-year interval is rejected with no request issued; a
one-day interval passes the check. -/
theorem fetch_interval_validation_witness :
    (ValidDate (Date.ofYMD 1990 1 1) ∧ ValidDate (Date.ofYMD 2024 12 31) ∧
        10950 < ((Date.ofYMD 2024 12 31).ord : ℤ) - (Date.ofYMD 1990 1 1).ord) ∧
      get_daily_nasa_power_data (Date.ofYMD 1990 1 1) (Date.ofYMD 2024 12 31)
          .transportFailure =
        { httpRequests := 0, printedDiagnostics := 0, out := .raisedValueError } ∧
      (get_daily_nasa_power_data (Date.ofYMD 2020 1 1) (Date.ofYMD 2020 1 2)
          (.ok sampleService)).out ≠ FetchOut.raisedValueError :=
  ⟨⟨by decide, by decide, by decide⟩,
    (fetch_interval_validation (Date.ofYMD 1990 1 1) (Date.ofYMD 2024 12 31)
        (by decide) (by decide)).1 (by decide) .transportFailure,
    (fetch_interval_validation (Date.ofYMD 2020 1 1) (Date.ofYMD 2020 1 2)
        (by decide) (by decide)).2 (by decide) (.ok sampleService)⟩

/-- C5: the emitted date token of every valid calendar date is exactly five
characters, the two-digit year modulo 100 followed by the zero-padded
three-digit day-of-year; in particular 2020-03-05 encodes to 20065 and
2020-01-01 to 20001. -/
theorem dssat_date_token (d : Date) (h : ValidDate d) :
    (dssatDate d).length = 5 ∧
      dssatDate d = pad2 (d.year % 100) ++ pad3 d.doy ∧
      dssatDate (Date.ofYMD 2020 3 5) = "20065" ∧
      dssatDate (Date.ofYMD 2020 1 1) = "20001" :=
  ⟨rfl, rfl, by decide, by decide⟩

/-- C5 witness: the theorem instantiated at 2020-03-05. -/
theorem dssat_date_token_witness :
    ValidDate (Date.ofYMD 2020 3 5) ∧
      ((dssatDate (Date.ofYMD 2020 3 5)).length = 5 ∧
        dssatDate (Date.ofYMD 2020 3 5) =
          pad2 ((Date.ofYMD 2020 3 5).year % 100) ++ pad3 (Date.ofYMD 2020 3 5).doy ∧
        dssatDate (Date.ofYMD 2020 3 5) = "20065" ∧
        dssatDate (Date.ofYMD 2020 1 1) = "20001") :=
  ⟨by decide, dssat_date_token (Date.ofYMD 2020 3 5) (by decide)⟩

/-- C7: on transport or HTTP-status failure of an interval that passes
validation, the fetch catches the failure, prints exactly one diagnostic,
issues exactly one request (no retry) and returns None instead of raising. -/
theorem fetch_soft_fails_on_transport_error (s e : Date)
    (hlen : (e.ord : ℤ) - s.ord ≤ 365 * 30) :
    get_daily_nasa_power_data s e .transportFailure =
      { httpRequests := 1, printedDiagnostics := 1, out := .returned none } := by
  unfold get_daily_nasa_power_data
  rw [if_neg (by omega)]

/-- C7 witness: the theorem instantiated at the one-day interval. -/
theorem fetch_soft_fails_on_transport_error_witness :
    (((Date.ofYMD 2020 1 1).ord : ℤ) - (Date.ofYMD 2020 1 1).ord ≤ 365 * 30) ∧
      get_daily_nasa_power_data (Date.ofYMD 2020 1 1) (Date.ofYMD 2020 1 1)
          .transportFailure =
        { httpRequests := 1, printedDiagnostics := 1, out := .returned none } :=
  ⟨by decide,
    fetch_soft_fails_on_transport_error (Date.ofYMD 2020 1 1) (Date.ofYMD 2020 1 1)
      (by decide)⟩

/-- C10: the fetch never checks that start ≤ end: with start after end the
negative day difference passes the 30-year bound, no ValueError is raised,
the HTTP request is issued, and on success the reindex to the then-empty
date range returns an empty series. -/
theorem fetch_skips_date_order_check (s e : Date) (hs : ValidDate s)
    (he : ValidDate e) (hrev : e.ord < s.ord) :
    (∀ svc, (get_daily_nasa_power_data s e svc).out ≠ FetchOut.raisedValueError ∧
        (get_daily_nasa_power_data s e svc).httpRequests = 1) ∧
      ∀ sd, (get_daily_nasa_power_data s e (.ok sd)).out = .returned (some []) := by
  have hneg : ¬ (365 * 30 < (e.ord : ℤ) - s.ord) := by
    have hc : (e.ord : ℤ) < s.ord := by exact_mod_cast hrev
    omega
  constructor
  · intro svc
    unfold get_daily_nasa_power_data
    rw [if_neg hneg]
    cases svc <;> simp
  · intro sd
    unfold get_daily_nasa_power_data
    rw [if_neg hneg]
    simp only
    unfold processResponse
    rw [show e.ord + 1 - s.ord = 0 by omega]
    rfl

/-- C10 witness: the theorem instantiated at the reversed interval
2020-01-02..2020-01-01. -/
theorem fetch_skips_date_order_check_witness :
    (ValidDate (Date.ofYMD 2020 1 2) ∧ ValidDate (Date.ofYMD 2020 1 1) ∧
        (Date.ofYMD 2020 1 1).ord < (Date.ofYMD 2020 1 2).ord) ∧
      ((∀ svc, (get_daily_nasa_power_data (Date.ofYMD 2020 1 2) (Date.ofYMD 2020 1 1)
            svc).out ≠ FetchOut.raisedValueError ∧
          (get_daily_nasa_power_data (Date.ofYMD 2020 1 2) (Date.ofYMD 2020 1 1)
            svc).httpRequests = 1) ∧
        ∀ sd, (get_daily_nasa_power_data (Date.ofYMD 2020 1 2) (Date.ofYMD 2020 1 1)
          (.ok sd)).out = .returned (some [])) :=
  ⟨⟨by decide, by decide, by decide⟩,
    fetch_skips_date_order_check (Date.ofYMD 2020 1 2) (Date.ofYMD 2020 1 1)
      (by decide) (by decide) (by decide)⟩

unseal Rat.mul Rat.add Rat.sub Rat.inv in
/-- C2 is violated by the code: save_wth_file reads each cell with
row.get(col, -99), whose default applies only when the key is absent from the
row's index; the seven renamed columns are always present, so a missing (NaN)
cell is returned as-is and renders as nan, not as the sentinel -99.  At a row
whose SRAD cell is missing, the written line carries "  nan" in the SRAD
field, where the claim requires "  -99" (what an actually substituted -99
would have rendered as is "-99.0"). -/
theorem missing_srad_renders_nan :
    dataLine (Date.ofYMD 2020 1 1)
        { tavg := some 25, tmax := some 30, tmin := some 20, rain := some 0,
          srad := none, rhum := some 80, wind := some 2 } =
      "20001   nan  30.0  20.0   0.0    80   2.0" ∧
      fmtCell 5 1 (rowGet (none : Option ℚ) (-99)) = "  nan" ∧
      fmtCell 5 1 (some (-99)) = "-99.0" :=
  ⟨by decide, by decide, by decide⟩

/-- C4: for every series whose aggregated columns have at least one present
value, TAV is the arithmetic mean of the TAVG column ignoring missing cells,
and AMP is half the difference between the greatest TMAX and the least TMIN,
both ignoring missing cells. -/
theorem header_statistics (rdf : List (Date × DssatObs))
    (htav : (rdf.map (fun p => p.2.tavg)).filterMap id ≠ [])
    (htmax : (rdf.map (fun p => p.2.tmax)).filterMap id ≠ [])
    (htmin : (rdf.map (fun p => p.2.tmin)).filterMap id ≠ []) :
    tavOf rdf = some (((rdf.map (fun p => p.2.tavg)).filterMap id).sum /
        ((rdf.map (fun p => p.2.tavg)).filterMap id).length) ∧
      ∃ M m, M ∈ (rdf.map (fun p => p.2.tmax)).filterMap id ∧
        (∀ x ∈ (rdf.map (fun p => p.2.tmax)).filterMap id, x ≤ M) ∧
        m ∈ (rdf.map (fun p => p.2.tmin)).filterMap id ∧
        (∀ x ∈ (rdf.map (fun p => p.2.tmin)).filterMap id, m ≤ x) ∧
        ampOf rdf = some ((M - m) / 2) := by
  constructor
  · unfold tavOf pdMean
    rw [if_neg (fun hc => htav (List.length_eq_zero.mp hc))]
  · rcases hM : ((rdf.map (fun p => p.2.tmax)).filterMap id).max? with _ | M
    · rw [List.max?_eq_none_iff] at hM
      exact absurd hM htmax
    · rcases hm : ((rdf.map (fun p => p.2.tmin)).filterMap id).min? with _ | m
      · rw [List.min?_eq_none_iff] at hm
        exact absurd hm htmin
      · have hMc := (List.max?_eq_some_iff (fun a => le_refl a) max_choice
          (fun _ _ _ => max_le_iff)).mp hM
        have hmc := (List.min?_eq_some_iff (fun a => le_refl a) min_choice
          (fun _ _ _ => le_min_iff)).mp hm
        refine ⟨M, m, hMc.1, hMc.2, hmc.1, hmc.2, ?_⟩
        unfold ampOf pdMax pdMin
        rw [hM, hm]

unseal Rat.mul Rat.add Rat.sub Rat.inv in
/-- C4 witness: the three-day series with TAVG values 10, 20, 30 (mean 20),
greatest TMAX 35 and least TMIN 5 (AMP 15). -/
theorem header_statistics_witness :
    ((sampleDssatFrame.map (fun p => p.2.tavg)).filterMap id ≠ [] ∧
        (sampleDssatFrame.map (fun p => p.2.tmax)).filterMap id ≠ [] ∧
        (sampleDssatFrame.map (fun p => p.2.tmin)).filterMap id ≠ []) ∧
      tavOf sampleDssatFrame = some 20 ∧
      ampOf sampleDssatFrame = some 15 ∧
      (tavOf sampleDssatFrame =
          some (((sampleDssatFrame.map (fun p => p.2.tavg)).filterMap id).sum /
            ((sampleDssatFrame.map (fun p => p.2.tavg)).filterMap id).length) ∧
        ∃ M m, M ∈ (sampleDssatFrame.map (fun p => p.2.tmax)).filterMap id ∧
          (∀ x ∈ (sampleDssatFrame.map (fun p => p.2.tmax)).filterMap id, x ≤ M) ∧
          m ∈ (sampleDssatFrame.map (fun p => p.2.tmin)).filterMap id ∧
          (∀ x ∈ (sampleDssatFrame.map (fun p => p.2.tmin)).filterMap id, m ≤ x) ∧
          ampOf sampleDssatFrame = some ((M - m) / 2)) :=
  ⟨⟨by decide, by decide, by decide⟩, by decide, by decide,
    header_statistics sampleDssatFrame (by decide) (by decide) (by decide)⟩

/-- C6 is violated by the code: daily_data is assigned only when both fetches
returned a frame, so when every fetch fails (and even when only one does) the
line if daily_data is not None raises an uncaught NameError instead of
letting the run continue; no output file exists in the state the crash leaves
behind. -/
theorem main_crashes_when_fetches_fail :
    mainRun none none { dirs := [], files := [] } =
        .uncaughtNameError { dirs := [], files := [] } ∧
      mainRun none
          (some (processResponse sampleService (Date.ofYMD 2020 1 1)
            (Date.ofYMD 2020 1 1)))
          { dirs := [], files := [] } =
        .uncaughtNameError { dirs := [], files := [] } ∧
      ({ dirs := [], files := [] } : FS).files.lookup
          ("./output" ++ "/" ++ ("W" ++ "BRMT" ++ "01.WTH")) = none :=
  ⟨rfl, rfl, rfl⟩

/-- C8: concatenating the fetched series of two disjoint, chronologically
adjacent intervals (each within the fetcher's 30-year bound) and writing the
result produces body rows in strictly ascending date order with pairwise
distinct 5-character date tokens. -/
theorem concat_adjacent_series_tokens (s1 e1 s2 e2 : Date)
    (sd1 sd2 : ServiceData)
    (hs1 : ValidDate s1) (he1 : ValidDate e1) (hs2 : ValidDate s2)
    (he2 : ValidDate e2)
    (h11 : s1.ord ≤ e1.ord) (h22 : s2.ord ≤ e2.ord)
    (hadj : s2.ord = e1.ord + 1)
    (hb1 : (e1.ord : ℤ) - s1.ord ≤ 365 * 30)
    (hb2 : (e2.ord : ℤ) - s2.ord ≤ 365 * 30) :
    ((processResponse sd1 s1 e1 ++ processResponse sd2 s2 e2).map
        (fun p => p.1.ord)).Pairwise (· < ·) ∧
      ((processResponse sd1 s1 e1 ++ processResponse sd2 s2 e2).map
        (fun p => dssatDate p.1)).Nodup := by
  have hkeys : (processResponse sd1 s1 e1 ++ processResponse sd2 s2 e2).map
      (fun p => p.1) =
      dateRange s1 (e1.ord + 1 - s1.ord) ++ dateRange s2 (e2.ord + 1 - s2.ord) := by
    unfold processResponse
    rw [List.map_append, List.map_map, List.map_map]
    show List.map (fun d => d) _ ++ List.map (fun d => d) _ = _
    rw [List.map_id', List.map_id']
  have hordgen : ∀ n2, n2 = e2.ord + 1 - s2.ord →
      (dateRange s1 (e1.ord + 1 - s1.ord) ++ dateRange s2 n2).map Date.ord =
        List.range' s1.ord (n2 + (e1.ord + 1 - s1.ord)) := by
    intro n2 hn2
    rw [List.map_append, dateRange_map_ord _ s1 hs1, dateRange_map_ord _ s2 hs2,
      show s2.ord = s1.ord + (e1.ord + 1 - s1.ord) by omega]
    exact List.range'_append_1 s1.ord (e1.ord + 1 - s1.ord) n2
  have hordmap : (dateRange s1 (e1.ord + 1 - s1.ord) ++
        dateRange s2 (e2.ord + 1 - s2.ord)).map Date.ord =
      List.range' s1.ord ((e2.ord + 1 - s2.ord) + (e1.ord + 1 - s1.ord)) :=
    hordgen _ rfl
  have hvalid : ∀ d ∈ dateRange s1 (e1.ord + 1 - s1.ord) ++
      dateRange s2 (e2.ord + 1 - s2.ord), ValidDate d := by
    intro d hd
    rcases List.mem_append.mp hd with hd1 | hd2
    · exact validDate_mem_dateRange _ s1 hs1 d hd1
    · exact validDate_mem_dateRange _ s2 hs2 d hd2
  constructor
  · have hcomp : (processResponse sd1 s1 e1 ++ processResponse sd2 s2 e2).map
        (fun p => p.1.ord) =
        ((processResponse sd1 s1 e1 ++ processResponse sd2 s2 e2).map
          (fun p => p.1)).map Date.ord := by
      rw [List.map_map]; rfl
    rw [hcomp, hkeys, hordmap]
    exact List.pairwise_lt_range' _ _
  · have hcomp : (processResponse sd1 s1 e1 ++ processResponse sd2 s2 e2).map
        (fun p => dssatDate p.1) =
        ((processResponse sd1 s1 e1 ++ processResponse sd2 s2 e2).map
          (fun p => p.1)).map dssatDate := by
      rw [List.map_map]; rfl
    rw [hcomp, hkeys]
    refine tokens_nodup_of_window _ s1.ord
      ((e2.ord + 1 - s2.ord) + (e1.ord + 1 - s1.ord)) (by omega) hordmap hvalid

/-- C8 witness: the adjacent one-day intervals 2020-01-01..2020-01-01 and
2020-01-02..2020-01-02. -/
theorem concat_adjacent_series_tokens_witness :
    ((Date.ofYMD 2020 1 2).ord = (Date.ofYMD 2020 1 1).ord + 1 ∧
        ((Date.ofYMD 2020 1 1).ord : ℤ) - (Date.ofYMD 2020 1 1).ord ≤ 365 * 30) ∧
      ((processResponse sampleService (Date.ofYMD 2020 1 1) (Date.ofYMD 2020 1 1) ++
          processResponse sampleService (Date.ofYMD 2020 1 2) (Date.ofYMD 2020 1 2)).map
        (fun p => p.1.ord)).Pairwise (· < ·) ∧
      ((processResponse sampleService (Date.ofYMD 2020 1 1) (Date.ofYMD 2020 1 1) ++
          processResponse sampleService (Date.ofYMD 2020 1 2) (Date.ofYMD 2020 1 2)).map
        (fun p => dssatDate p.1)).Nodup :=
  ⟨⟨by decide, by decide⟩,
    concat_adjacent_series_tokens (Date.ofYMD 2020 1 1) (Date.ofYMD 2020 1 1)
      (Date.ofYMD 2020 1 2) (Date.ofYMD 2020 1 2) sampleService sampleService
      (by decide) (by decide) (by decide) (by decide) (by decide) (by decide)
      (by decide) (by decide) (by decide)⟩

/-- C9: for every write call and every prior state of the file system, the
output lands at output_folder/W<site>01.WTH, the folder exists afterwards
(created when absent, untouched when present), any previous file of that name
is replaced without error, and the content is the header block followed by
the newline-joined data lines. -/
theorem save_wth_file_behaviour (fs : FS) (df df2 : List (Date × Obs))
    (site : String) (lat lon elev : ℚ) (folder : String) :
    (save_wth_file fs df site lat lon elev folder).files.lookup
        (folder ++ "/" ++ ("W" ++ site ++ "01.WTH")) =
      some (wthHeader site lat lon elev
          (tavOf (df.map (fun p => (p.1, renameColumns p.2))))
          (ampOf (df.map (fun p => (p.1, renameColumns p.2)))) ++
        String.intercalate "\n"
          ((df.map (fun p => (p.1, renameColumns p.2))).map
            (fun p => dataLine p.1 p.2))) ∧
      folder ∈ (save_wth_file fs df site lat lon elev folder).dirs ∧
      (save_wth_file (save_wth_file fs df2 site lat lon elev folder)
          df site lat lon elev folder).files.lookup
          (folder ++ "/" ++ ("W" ++ site ++ "01.WTH")) =
        some (wthHeader site lat lon elev
            (tavOf (df.map (fun p => (p.1, renameColumns p.2))))
            (ampOf (df.map (fun p => (p.1, renameColumns p.2)))) ++
          String.intercalate "\n"
            ((df.map (fun p => (p.1, renameColumns p.2))).map
              (fun p => dataLine p.1 p.2))) := by
  have hlook : ∀ g : FS, (save_wth_file g df site lat lon elev folder).files.lookup
      (folder ++ "/" ++ ("W" ++ site ++ "01.WTH")) =
      some (wthHeader site lat lon elev
          (tavOf (df.map (fun p => (p.1, renameColumns p.2))))
          (ampOf (df.map (fun p => (p.1, renameColumns p.2)))) ++
        String.intercalate "\n"
          ((df.map (fun p => (p.1, renameColumns p.2))).map
            (fun p => dataLine p.1 p.2))) := by
    intro g
    unfold save_wth_file fsWrite
    simp [List.lookup]
  refine ⟨hlook fs, ?_, hlook _⟩
  unfold save_wth_file fsWrite fsMakedirs
  by_cases hmem : folder ∈ fs.dirs
  · rw [if_pos hmem]
    exact hmem
  · rw [if_neg hmem]
    exact List.mem_cons_self _ _

end NasaPowerDssat
